import Mathlib

/-!
A shallow embedding of the core of the pxp PHP parser: the token stream
driver, the production combinators, the loop / trait / variable productions
and the AST node types they build, together with the lexer error model.
Machine-level details (byte buffers, allocation) are abstracted; token
values are carried as strings.  Recursive productions take an explicit
fuel argument: the Rust code recurses without a bound, and `fuel` bounds
the recursion depth, with a distinguished `outOfFuel` outcome that the
real code would reach only by diverging.
-/

set_option linter.unusedVariables false

/-- A source position: 1-based line and column, 0-based byte offset. -/
structure Position where
  line : Nat
  column : Nat
  offset : Nat
deriving DecidableEq, Repr

/-- A source span, `{ start, end }`; the `end` field is called `stop` here
because `end` is reserved in Lean. -/
structure Span where
  start : Position
  stop : Position
deriving DecidableEq, Repr

/-- The closed enumeration of token kinds used by the productions in the
shown sources.  Names ending in `Kw`/`Tok` stand for the corresponding
Rust `TokenKind` variants (`As`, `Use`, `Variable`, ...). -/
inductive TokenKind where
  | foreach
  | endForeach
  | asKw
  | ampersand
  | doubleArrow
  | colon
  | semiColon
  | closeTag
  | leftParen
  | rightParen
  | leftBrace
  | rightBrace
  | comma
  | useKw
  | varKw
  | constKw
  | functionKw
  | traitKw
  | whileKw
  | endWhile
  | forKw
  | endFor
  | doKw
  | breakKw
  | continueKw
  | literalInteger
  | variableTok
  | dollar
  | dollarLeftBrace
  | identifier
  | doubleColon
  | insteadof
  | publicKw
  | protectedKw
  | privateKw
  | staticKw
  | abstractKw
  | finalKw
  | readonlyKw
  | attributeTok
  | eof
deriving DecidableEq, Repr

/-- A lexical token: `{ kind, span, value }`. -/
structure Token where
  kind : TokenKind
  span : Span
  value : String
deriving DecidableEq, Repr

/-- The stream driver's state: the remaining suffix of the token vector.
`current` reads the head, `next` advances; the end of the vector behaves
as a synthetic EOF sentinel. -/
abbrev State := List Token

/-- The synthetic EOF token returned past the end of the stream. -/
def eofToken : Token :=
  { kind := .eof, span := ⟨⟨0, 0, 0⟩, ⟨0, 0, 0⟩⟩, value := "" }

/-- `state.stream.current()`. -/
def current (s : State) : Token := s.headD eofToken

/-- `state.stream.peek()`: one token of lookahead. -/
def peek (s : State) : Token := (s.drop 1).headD eofToken

/-- `state.stream.next()`: advance by one token. -/
def next (s : State) : State := s.tail

/-- Parser errors.  Modelled from the spec (section 7): an expected-token
mismatch raised by the `skip` family carries the list of expected items and
the offending token's value and span.  `outOfFuel` is the artefact of the
fuel-bounded embedding of the unbounded Rust recursion. -/
inductive ParseError where
  | expectedToken (expected : List String) (found : String) (span : Span)
  | outOfFuel
deriving DecidableEq, Repr

/-- Result of a production: a value together with the state after the
consumed tokens, or a propagated error (`ParseResult<T>` with the state
threading made explicit). -/
inductive ParseResult (α : Type) where
  | ok (val : α) (state : State)
  | err (e : ParseError)
deriving DecidableEq, Repr

/-- Map over the value of a `ParseResult` (Rust's `Result::map`). -/
def presMap {α β : Type} (f : α → β) : ParseResult α → ParseResult β
  | .ok a s => .ok (f a) s
  | .err e => .err e

/-- A printable name for each token kind, used in expected-token errors. -/
def tokenKindName : TokenKind → String
  | .foreach => "foreach"
  | .endForeach => "endforeach"
  | .asKw => "as"
  | .ampersand => "ampersand"
  | .doubleArrow => "double arrow"
  | .colon => "colon"
  | .semiColon => "semicolon"
  | .closeTag => "close tag"
  | .leftParen => "left parenthesis"
  | .rightParen => "right parenthesis"
  | .leftBrace => "left brace"
  | .rightBrace => "right brace"
  | .comma => "comma"
  | .useKw => "use"
  | .varKw => "var"
  | .constKw => "const"
  | .functionKw => "function"
  | .traitKw => "trait"
  | .whileKw => "while"
  | .endWhile => "endwhile"
  | .forKw => "for"
  | .endFor => "endfor"
  | .doKw => "do"
  | .breakKw => "break"
  | .continueKw => "continue"
  | .literalInteger => "integer literal"
  | .variableTok => "variable"
  | .dollar => "dollar"
  | .dollarLeftBrace => "dollar left brace"
  | .identifier => "identifier"
  | .doubleColon => "double colon"
  | .insteadof => "insteadof"
  | .publicKw => "public"
  | .protectedKw => "protected"
  | .privateKw => "private"
  | .staticKw => "static"
  | .abstractKw => "abstract"
  | .finalKw => "final"
  | .readonlyKw => "readonly"
  | .attributeTok => "attribute"
  | .eof => "end of file"

/-- Modelled from the spec (section 4.2): `skip(kind)` returns the current
token's span and advances when the kinds match, and otherwise fails with an
expected-token error carrying the offending token's span. -/
def skip (kind : TokenKind) (s : State) : ParseResult Span :=
  if (current s).kind = kind then .ok (current s).span (next s)
  else .err (.expectedToken [tokenKindName kind] (current s).value (current s).span)

/-- Modelled from the spec: `skip_semicolon` specializes `skip`. -/
def skip_semicolon (s : State) : ParseResult Span := skip .semiColon s

/-- Modelled from the spec: `skip_left_brace` specializes `skip`. -/
def skip_left_brace (s : State) : ParseResult Span := skip .leftBrace s

/-- Modelled from the spec: `skip_right_brace` specializes `skip`. -/
def skip_right_brace (s : State) : ParseResult Span := skip .rightBrace s

/-- Modelled from the spec: `skip_colon` specializes `skip`. -/
def skip_colon (s : State) : ParseResult Span := skip .colon s

/-- The tagged choice between `;` and `?>` terminating a statement. -/
inductive Ending where
  | semicolon (span : Span)
  | closeTag (span : Span)
deriving DecidableEq, Repr

/-- Modelled from the spec (section 4.2): `skip_ending` accepts either `;`
or a close tag, recording which. -/
def skip_ending (s : State) : ParseResult Ending :=
  if (current s).kind = .semiColon then .ok (.semicolon (current s).span) (next s)
  else if (current s).kind = .closeTag then .ok (.closeTag (current s).span) (next s)
  else .err (.expectedToken [tokenKindName .semiColon, tokenKindName .closeTag]
    (current s).value (current s).span)

/-- Modelled from the spec (section 4.2): `parenthesized(inner)` wraps
`inner` between matched `(` and `)` spans. -/
def parenthesized {α : Type} (inner : State → ParseResult α) (s : State) :
    ParseResult (Span × α × Span) :=
  match skip .leftParen s with
  | .err e => .err e
  | .ok lp s1 =>
    match inner s1 with
    | .err e => .err e
    | .ok x s2 =>
      match skip .rightParen s2 with
      | .err e => .err e
      | .ok rp s3 => .ok (lp, x, rp) s3

/-- Modelled from the spec (section 4.2): `semicolon_terminated(inner)` runs
`inner`, then consumes `;`, returning the semicolon span alongside the value. -/
def semicolon_terminated {α : Type} (inner : State → ParseResult α) (s : State) :
    ParseResult (Span × α) :=
  match inner s with
  | .err e => .err e
  | .ok x s1 =>
    match skip .semiColon s1 with
    | .err e => .err e
    | .ok semi s2 => .ok (semi, x) s2

/-- `CommaSeparated<T>`: the parsed items together with the spans of the
separating commas. -/
structure CommaSeparated (α : Type) where
  inner : List α
  commas : List Span
deriving DecidableEq, Repr

/-- Modelled from the spec (sections 4.2 and 9): zero or more `inner`
separated by `,`, terminated when the current kind equals the terminator;
a `,` followed immediately by the terminator redirects to `skip` of the
terminator, which fails at the comma. -/
def comma_separated_no_trailing {α : Type} (inner : State → ParseResult α) :
    Nat → TokenKind → State → ParseResult (CommaSeparated α)
  | 0, _, _ => .err .outOfFuel
  | fuel + 1, terminator, s =>
    if (current s).kind = terminator then .ok ⟨[], []⟩ s
    else
      match inner s with
      | .err e => .err e
      | .ok x s1 =>
        if (current s1).kind = .comma then
          if (peek s1).kind = terminator then
            match skip terminator s1 with
            | .err e => .err e
            | .ok _ s2 =>
              match comma_separated_no_trailing inner fuel terminator s2 with
              | .err e => .err e
              | .ok rest s3 => .ok ⟨x :: rest.inner, (current s1).span :: rest.commas⟩ s3
          else
            match comma_separated_no_trailing inner fuel terminator (next s1) with
            | .err e => .err e
            | .ok rest s2 => .ok ⟨x :: rest.inner, (current s1).span :: rest.commas⟩ s2
        else .ok ⟨[x], []⟩ s1

/-- `SimpleVariable { span, name }`. -/
structure SimpleVariable where
  span : Span
  name : String
deriving DecidableEq, Repr

/-- `SimpleIdentifier { span, value }`.  Modelled from the spec: the
identifier AST node built by the identifier productions, which are not in
the shown sources. -/
structure SimpleIdentifier where
  span : Span
  value : String
deriving DecidableEq, Repr

/-- `LiteralInteger { value, span }`. -/
structure LiteralInteger where
  value : String
  span : Span
deriving DecidableEq, Repr

mutual
/-- The `Variable` AST node: `SimpleVariable`, `VariableVariable` or
`BracedVariableVariable` (fields `start`, boxed inner expression, `end`). -/
inductive Variable where
  | simpleVariable (v : SimpleVariable)
  | variableVariable (span : Span) (inner : Variable)
  | bracedVariableVariable (start : Span) (inner : Expression) (stop : Span)
deriving DecidableEq, Repr

/-- The expression AST.  Modelled from the spec: the full expression
grammar is not in the shown sources; the atoms the shown productions use
are variables and integer literals. -/
inductive Expression where
  | variableE (v : Variable)
  | literalIntegerE (i : LiteralInteger)
deriving DecidableEq, Repr
end

/-- Modelled from the spec: `expressions::create` is not in the shown
sources; this minimal expression production covers the atoms used by the
shown productions: a `Variable` token or a `LiteralInteger` token. -/
def expressions_create (s : State) : ParseResult Expression :=
  let c := current s
  if c.kind = .variableTok then
    .ok (.variableE (.simpleVariable ⟨c.span, c.value⟩)) (next s)
  else if c.kind = .literalInteger then
    .ok (.literalIntegerE ⟨c.value, c.span⟩) (next s)
  else .err (.expectedToken ["an expression"] c.value c.span)

/-- `simple_variable`: requires a `Variable` token. -/
def simple_variable (s : State) : ParseResult SimpleVariable :=
  let c := current s
  if c.kind = .variableTok then .ok ⟨c.span, c.value⟩ (next s)
  else .err (.expectedToken ["a variable"] c.value c.span)

/-- `dynamic_variable`, with fuel bounding the recursion depth of the
`$` ladder.  The four arms follow the source: a `Variable` token, a single
`DollarLeftBrace` token, a `Dollar` token whose lookahead is `LeftBrace`
(the lexer quirk), and a bare `Dollar` that recurses. -/
def dynamic_variableF : Nat → State → ParseResult Variable
  | 0, _ => .err .outOfFuel
  | fuel + 1, s =>
    let c := current s
    if c.kind = .variableTok then
      .ok (.simpleVariable ⟨c.span, c.value⟩) (next s)
    else if c.kind = .dollarLeftBrace then
      match expressions_create (next s) with
      | .err e => .err e
      | .ok expr s1 =>
        match skip_right_brace s1 with
        | .err e => .err e
        | .ok stop s2 => .ok (.bracedVariableVariable c.span expr stop) s2
    else if c.kind = .dollar then
      if (peek s).kind = .leftBrace then
        match expressions_create (next (next s)) with
        | .err e => .err e
        | .ok expr s1 =>
          match skip_right_brace s1 with
          | .err e => .err e
          | .ok stop s2 => .ok (.bracedVariableVariable c.span expr stop) s2
      else
        match dynamic_variableF fuel (next s) with
        | .err e => .err e
        | .ok v s1 => .ok (.variableVariable c.span v) s1
    else .err (.expectedToken ["a variable"] c.value c.span)

/-- The `Level` AST node of `break`/`continue`: an integer literal or an
arbitrarily nested parenthesized level. -/
inductive Level where
  | literal (i : LiteralInteger)
  | parenthesized (left_parenthesis : Span) (level : Level) (right_parenthesis : Span)
deriving DecidableEq, Repr

/-- `loop_level`, with fuel bounding the nesting depth: a literal integer,
or `parenthesized` around a recursive `loop_level`. -/
def loop_levelF : Nat → State → ParseResult Level
  | 0, _ => .err .outOfFuel
  | fuel + 1, s =>
    let c := current s
    if c.kind = .literalInteger then
      .ok (.literal ⟨c.value, c.span⟩) (next s)
    else
      match parenthesized (loop_levelF fuel) s with
      | .err e => .err e
      | .ok (lp, lvl, rp) s1 => .ok (.parenthesized lp lvl rp) s1

/-- `maybe_loop_level`: a level is present iff the current kind is neither
`;` nor a close tag. -/
def maybe_loop_levelF (fuel : Nat) (s : State) : ParseResult (Option Level) :=
  let c := (current s).kind
  if c = .semiColon ∨ c = .closeTag then .ok none s
  else
    match loop_levelF fuel s with
    | .err e => .err e
    | .ok lvl s1 => .ok (some lvl) s1

/-- `ForeachStatementIterator`: the `Value` and `KeyAndValue` variants.
Field order follows the Rust enum; in `keyAndValue` the `ampersand` span is
the one stored by the parser. -/
inductive ForeachStatementIterator where
  | value (expression : Expression) (asSpan : Span) (ampersand : Option Span)
      (val : Expression)
  | keyAndValue (expression : Expression) (asSpan : Span) (ampersand : Option Span)
      (key : Expression) (double_arrow : Span) (val : Expression)
deriving DecidableEq, Repr

/-- `ForStatementIterator`: three comma-separated expression lists with the
two separating semicolon spans. -/
structure ForStatementIterator where
  initializations : CommaSeparated Expression
  initializations_semicolon : Span
  conditions : CommaSeparated Expression
  conditions_semicolon : Span
  loopExprs : CommaSeparated Expression
deriving DecidableEq, Repr

mutual
/-- The statement AST.  The loop statements come from the shown sources;
the `block`, `noop` and expression-statement forms are modelled from the
spec, as the statement dispatcher is not in the shown sources. -/
inductive Statement where
  | foreach (f : ForeachStatement)
  | forS (f : ForStatement)
  | whileS (w : WhileStatement)
  | doWhile (d : DoWhileStatement)
  | breakS (breakSpan : Span) (level : Option Level) (ending : Ending)
  | continueS (continueSpan : Span) (level : Option Level) (ending : Ending)
  | block (left_brace : Span) (statements : List Statement) (right_brace : Span)
  | noop (span : Span)
  | expressionStmt (e : Expression) (ending : Ending)
deriving Repr

/-- `ForeachStatement`: spans of `foreach`, `(`, `)` around the iterator,
and the body. -/
inductive ForeachStatement where
  | mk (foreachSpan : Span) (left_parenthesis : Span)
      (iterator : ForeachStatementIterator) (right_parenthesis : Span)
      (body : ForeachStatementBody)
deriving Repr

/-- `ForeachStatementBody`: a single boxed statement, or the alternative
block form `{ :, statements, endforeach, ending }`. -/
inductive ForeachStatementBody where
  | statement (stmt : Statement)
  | block (colon : Span) (statements : List Statement) (endforeach : Span)
      (ending : Ending)
deriving Repr

/-- `ForStatement`. -/
inductive ForStatement where
  | mk (forSpan : Span) (left_parenthesis : Span) (iterator : ForStatementIterator)
      (right_parenthesis : Span) (body : ForStatementBody)
deriving Repr

/-- `ForStatementBody`: statement form or alternative block form ending in
`endfor`. -/
inductive ForStatementBody where
  | statement (stmt : Statement)
  | block (colon : Span) (statements : List Statement) (endfor : Span)
      (ending : Ending)
deriving Repr

/-- `WhileStatement`. -/
inductive WhileStatement where
  | mk (whileSpan : Span) (left_parenthesis : Span) (condition : Expression)
      (right_parenthesis : Span) (body : WhileStatementBody)
deriving Repr

/-- `WhileStatementBody`: statement form or alternative block form ending
in `endwhile`. -/
inductive WhileStatementBody where
  | statement (stmt : Statement)
  | block (colon : Span) (statements : List Statement) (endwhile : Span)
      (ending : Ending)
deriving Repr

/-- `DoWhileStatement`. -/
inductive DoWhileStatement where
  | mk (doSpan : Span) (body : Statement) (whileSpan : Span)
      (left_parenthesis : Span) (condition : Expression)
      (right_parenthesis : Span) (semicolon : Span)
deriving Repr
end

/-- The body field of a parsed foreach statement. -/
def ForeachStatement.body : ForeachStatement → ForeachStatementBody
  | .mk _ _ _ _ b => b

/-- The iterator field of a parsed foreach statement. -/
def ForeachStatement.iterator : ForeachStatement → ForeachStatementIterator
  | .mk _ _ it _ _ => it

/-- The body field of a parsed for statement. -/
def ForStatement.body : ForStatement → ForStatementBody
  | .mk _ _ _ _ b => b

/-- The body field of a parsed while statement. -/
def WhileStatement.body : WhileStatement → WhileStatementBody
  | .mk _ _ _ _ b => b

/-- Whether a foreach body is the alternative `Block` variant. -/
def ForeachStatementBody.isBlock : ForeachStatementBody → Bool
  | .statement _ => false
  | .block _ _ _ _ => true

/-- Whether a for body is the alternative `Block` variant. -/
def ForStatementBody.isBlock : ForStatementBody → Bool
  | .statement _ => false
  | .block _ _ _ _ => true

/-- Whether a while body is the alternative `Block` variant. -/
def WhileStatementBody.isBlock : WhileStatementBody → Bool
  | .statement _ => false
  | .block _ _ _ _ => true

/-- Modelled from the spec: `blocks::multiple_statements_until` is not in
the shown sources; it parses statements with the given statement production
until the terminating kind (or EOF) is reached. -/
def multiple_statements_until (stmt : State → ParseResult Statement) :
    Nat → TokenKind → State → ParseResult (List Statement)
  | 0, _, _ => .err .outOfFuel
  | fuel + 1, k, s =>
    if (current s).kind = k ∨ (current s).kind = .eof then .ok [] s
    else
      match stmt s with
      | .err e => .err e
      | .ok st s1 =>
        match multiple_statements_until stmt fuel k s1 with
        | .err e => .err e
        | .ok sts s2 => .ok (st :: sts) s2

/-- The parenthesized header production of `foreach_statement` (the closure
passed to `utils::parenthesized` in the source): expression, `as`, optional
`&`, an expression read into `value`, then on `=>` an optional second `&`
(shadowing the first binding) and another expression, followed by
`std::mem::swap(&mut value, &mut key)`. -/
def foreach_iterator (s : State) : ParseResult ForeachStatementIterator :=
  match expressions_create s with
  | .err e => .err e
  | .ok expression s1 =>
    match skip .asKw s1 with
    | .err e => .err e
    | .ok asSpan s2 =>
      let c := current s2
      let ampersand : Option Span := if c.kind = .ampersand then some c.span else none
      let s3 := if c.kind = .ampersand then next s2 else s2
      match expressions_create s3 with
      | .err e => .err e
      | .ok value0 s4 =>
        let c2 := current s4
        if c2.kind = .doubleArrow then
          let arrow := c2.span
          let s5 := next s4
          let c3 := current s5
          let ampersand2 : Option Span := if c3.kind = .ampersand then some c3.span else none
          let s6 := if c3.kind = .ampersand then next s5 else s5
          match expressions_create s6 with
          | .err e => .err e
          | .ok key0 s7 =>
            -- after the swap, `key` holds the first-read expression and
            -- `value` the second-read one; the stored ampersand is the
            -- inner (post-arrow) binding that shadows the outer one
            .ok (.keyAndValue expression asSpan ampersand2 value0 arrow key0) s7
        else
          .ok (.value expression asSpan ampersand value0) s4

/-- The header of `foreach_statement`: the `foreach` keyword span and the
parenthesized iterator. -/
def foreach_header (s : State) :
    ParseResult (Span × Span × ForeachStatementIterator × Span) :=
  match skip .foreach s with
  | .err e => .err e
  | .ok f s1 =>
    match parenthesized foreach_iterator s1 with
    | .err e => .err e
    | .ok (lp, it, rp) s2 => .ok (f, lp, it, rp) s2

/-- The body dispatch of `foreach_statement`: the alternative block form
when the current token is `:`, else a single statement. -/
def foreach_body (stmt : State → ParseResult Statement)
    (stmtsUntil : TokenKind → State → ParseResult (List Statement))
    (s : State) : ParseResult ForeachStatementBody :=
  if (current s).kind = .colon then
    match skip_colon s with
    | .err e => .err e
    | .ok colon s1 =>
      match stmtsUntil .endForeach s1 with
      | .err e => .err e
      | .ok sts s2 =>
        match skip .endForeach s2 with
        | .err e => .err e
        | .ok endf s3 =>
          match skip_ending s3 with
          | .err e => .err e
          | .ok ending s4 => .ok (.block colon sts endf ending) s4
  else
    match stmt s with
    | .err e => .err e
    | .ok st s1 => .ok (.statement st) s1

/-- `foreach_statement`, parameterized by the statement production used for
the body (tied with fuel below). -/
def foreach_statement_core (stmt : State → ParseResult Statement)
    (stmtsUntil : TokenKind → State → ParseResult (List Statement))
    (s : State) : ParseResult Statement :=
  match foreach_header s with
  | .err e => .err e
  | .ok (f, lp, it, rp) s1 =>
    match foreach_body stmt stmtsUntil s1 with
    | .err e => .err e
    | .ok body s2 => .ok (.foreach (.mk f lp it rp body)) s2

/-- The parenthesized header production of `for_statement`: two
semicolon-terminated comma-separated lists, then a third list terminated by
`)`. -/
def for_iterator (fuel : Nat) (s : State) : ParseResult ForStatementIterator :=
  match semicolon_terminated
      (fun s0 => comma_separated_no_trailing expressions_create fuel .semiColon s0) s with
  | .err e => .err e
  | .ok (initsSemi, inits) s1 =>
    match semicolon_terminated
        (fun s0 => comma_separated_no_trailing expressions_create fuel .semiColon s0) s1 with
    | .err e => .err e
    | .ok (condsSemi, conds) s2 =>
      match comma_separated_no_trailing expressions_create fuel .rightParen s2 with
      | .err e => .err e
      | .ok loopList s3 => .ok ⟨inits, initsSemi, conds, condsSemi, loopList⟩ s3

/-- The header of `for_statement`. -/
def for_header (fuel : Nat) (s : State) :
    ParseResult (Span × Span × ForStatementIterator × Span) :=
  match skip .forKw s with
  | .err e => .err e
  | .ok f s1 =>
    match parenthesized (for_iterator fuel) s1 with
    | .err e => .err e
    | .ok (lp, it, rp) s2 => .ok (f, lp, it, rp) s2

/-- The body dispatch of `for_statement`. -/
def for_body (stmt : State → ParseResult Statement)
    (stmtsUntil : TokenKind → State → ParseResult (List Statement))
    (s : State) : ParseResult ForStatementBody :=
  if (current s).kind = .colon then
    match skip_colon s with
    | .err e => .err e
    | .ok colon s1 =>
      match stmtsUntil .endFor s1 with
      | .err e => .err e
      | .ok sts s2 =>
        match skip .endFor s2 with
        | .err e => .err e
        | .ok endf s3 =>
          match skip_ending s3 with
          | .err e => .err e
          | .ok ending s4 => .ok (.block colon sts endf ending) s4
  else
    match stmt s with
    | .err e => .err e
    | .ok st s1 => .ok (.statement st) s1

/-- `for_statement`, parameterized like `foreach_statement_core`. -/
def for_statement_core (stmt : State → ParseResult Statement)
    (stmtsUntil : TokenKind → State → ParseResult (List Statement))
    (fuel : Nat) (s : State) : ParseResult Statement :=
  match for_header fuel s with
  | .err e => .err e
  | .ok (f, lp, it, rp) s1 =>
    match for_body stmt stmtsUntil s1 with
    | .err e => .err e
    | .ok body s2 => .ok (.forS (.mk f lp it rp body)) s2

/-- The header of `while_statement`: the keyword span and the parenthesized
condition. -/
def while_header (s : State) : ParseResult (Span × Span × Expression × Span) :=
  match skip .whileKw s with
  | .err e => .err e
  | .ok w s1 =>
    match parenthesized expressions_create s1 with
    | .err e => .err e
    | .ok (lp, cond, rp) s2 => .ok (w, lp, cond, rp) s2

/-- The body dispatch of `while_statement`. -/
def while_body (stmt : State → ParseResult Statement)
    (stmtsUntil : TokenKind → State → ParseResult (List Statement))
    (s : State) : ParseResult WhileStatementBody :=
  if (current s).kind = .colon then
    match skip_colon s with
    | .err e => .err e
    | .ok colon s1 =>
      match stmtsUntil .endWhile s1 with
      | .err e => .err e
      | .ok sts s2 =>
        match skip .endWhile s2 with
        | .err e => .err e
        | .ok endw s3 =>
          match skip_ending s3 with
          | .err e => .err e
          | .ok ending s4 => .ok (.block colon sts endw ending) s4
  else
    match stmt s with
    | .err e => .err e
    | .ok st s1 => .ok (.statement st) s1

/-- `while_statement`, parameterized like `foreach_statement_core`. -/
def while_statement_core (stmt : State → ParseResult Statement)
    (stmtsUntil : TokenKind → State → ParseResult (List Statement))
    (s : State) : ParseResult Statement :=
  match while_header s with
  | .err e => .err e
  | .ok (w, lp, cond, rp) s1 =>
    match while_body stmt stmtsUntil s1 with
    | .err e => .err e
    | .ok body s2 => .ok (.whileS (.mk w lp cond rp body)) s2

/-- `do_while_statement`: `do stmt while ( cond ) ;` with the final `;`
captured by `semicolon_terminated` around `parenthesized`. -/
def do_while_statement_core (stmt : State → ParseResult Statement)
    (s : State) : ParseResult Statement :=
  match skip .doKw s with
  | .err e => .err e
  | .ok d s1 =>
    match stmt s1 with
    | .err e => .err e
    | .ok body s2 =>
      match skip .whileKw s2 with
      | .err e => .err e
      | .ok w s3 =>
        match semicolon_terminated (parenthesized expressions_create) s3 with
        | .err e => .err e
        | .ok (semi, (lp, cond, rp)) s4 =>
          .ok (.doWhile (.mk d body w lp cond rp semi)) s4

/-- `break_statement`: `break [ level ] ending`. -/
def break_statement_core (fuel : Nat) (s : State) : ParseResult Statement :=
  match skip .breakKw s with
  | .err e => .err e
  | .ok b s1 =>
    match maybe_loop_levelF fuel s1 with
    | .err e => .err e
    | .ok lvl s2 =>
      match skip_ending s2 with
      | .err e => .err e
      | .ok ending s3 => .ok (.breakS b lvl ending) s3

/-- `continue_statement`: `continue [ level ] ending`. -/
def continue_statement_core (fuel : Nat) (s : State) : ParseResult Statement :=
  match skip .continueKw s with
  | .err e => .err e
  | .ok c s1 =>
    match maybe_loop_levelF fuel s1 with
    | .err e => .err e
    | .ok lvl s2 =>
      match skip_ending s2 with
      | .err e => .err e
      | .ok ending s3 => .ok (.continueS c lvl ending) s3

/-- Modelled from the spec: the statement dispatcher is not in the shown
sources; it dispatches on the current token kind to the loop productions of
the shown sources, a compound `{ ... }` block, a `;` no-op, or an
expression statement.  Fuel bounds the statement nesting depth. -/
def statementF : Nat → State → ParseResult Statement
  | 0, _ => .err .outOfFuel
  | fuel + 1, s =>
    match (current s).kind with
    | .foreach =>
      foreach_statement_core (statementF fuel)
        (fun k s0 => multiple_statements_until (statementF fuel) fuel k s0) s
    | .forKw =>
      for_statement_core (statementF fuel)
        (fun k s0 => multiple_statements_until (statementF fuel) fuel k s0) fuel s
    | .whileKw =>
      while_statement_core (statementF fuel)
        (fun k s0 => multiple_statements_until (statementF fuel) fuel k s0) s
    | .doKw => do_while_statement_core (statementF fuel) s
    | .breakKw => break_statement_core fuel s
    | .continueKw => continue_statement_core fuel s
    | .leftBrace =>
      match skip_left_brace s with
      | .err e => .err e
      | .ok lb s1 =>
        match multiple_statements_until (statementF fuel) fuel .rightBrace s1 with
        | .err e => .err e
        | .ok sts s2 =>
          match skip_right_brace s2 with
          | .err e => .err e
          | .ok rb s3 => .ok (.block lb sts rb) s3
    | .semiColon => .ok (.noop (current s).span) (next s)
    | _ =>
      match expressions_create s with
      | .err e => .err e
      | .ok expr s1 =>
        match skip_ending s1 with
        | .err e => .err e
        | .ok ending s2 => .ok (.expressionStmt expr ending) s2

/-- `foreach_statement` with the statement production instantiated at the
given fuel. -/
def foreach_statementF (fuel : Nat) (s : State) : ParseResult Statement :=
  foreach_statement_core (statementF fuel)
    (fun k s0 => multiple_statements_until (statementF fuel) fuel k s0) s

/-- `for_statement` with the statement production instantiated at the given
fuel. -/
def for_statementF (fuel : Nat) (s : State) : ParseResult Statement :=
  for_statement_core (statementF fuel)
    (fun k s0 => multiple_statements_until (statementF fuel) fuel k s0) fuel s

/-- `while_statement` with the statement production instantiated at the
given fuel. -/
def while_statementF (fuel : Nat) (s : State) : ParseResult Statement :=
  while_statement_core (statementF fuel)
    (fun k s0 => multiple_statements_until (statementF fuel) fuel k s0) s

/-- Modelled from the spec: `identifiers::full_type_name` is not in the
shown sources; it consumes an identifier token and yields a
`SimpleIdentifier`. -/
def full_type_name (s : State) : ParseResult SimpleIdentifier :=
  let c := current s
  if c.kind = .identifier then .ok ⟨c.span, c.value⟩ (next s)
  else .err (.expectedToken ["an identifier"] c.value c.span)

/-- Modelled from the spec: `identifiers::identifier`, as `full_type_name`. -/
def identifierP (s : State) : ParseResult SimpleIdentifier := full_type_name s

/-- Modelled from the spec: `identifiers::name`, as `full_type_name`. -/
def nameP (s : State) : ParseResult SimpleIdentifier := full_type_name s

/-- `VisibilityModifier`: public, protected or private, with the keyword
span. -/
inductive VisibilityModifier where
  | publicM (span : Span)
  | protectedM (span : Span)
  | privateM (span : Span)
deriving DecidableEq, Repr

/-- `TraitUsageAdaptation`: `Visibility`, `Alias` or `Precedence`. -/
inductive TraitUsageAdaptation where
  | visibility (traitName : Option SimpleIdentifier) (method : SimpleIdentifier)
      (vis : VisibilityModifier)
  | alias (traitName : Option SimpleIdentifier) (method : SimpleIdentifier)
      (aliasName : SimpleIdentifier) (vis : Option VisibilityModifier)
  | precedence (traitName : Option SimpleIdentifier) (method : SimpleIdentifier)
      (insteadof : List SimpleIdentifier)
deriving DecidableEq, Repr

/-- `TraitUsage { use, traits, adaptations }`. -/
structure TraitUsage where
  useSpan : Span
  traits : List SimpleIdentifier
  adaptations : List TraitUsageAdaptation
deriving DecidableEq, Repr

/-- The trait-name list loop of `usage` (traits.rs lines 30-51): while the
current token is neither `;` nor `{`, read a type name; on a `,` whose
lookahead is `;` or `{`, redirect to the matching `skip`, which fails at
the comma; otherwise consume the comma and continue, or break. -/
def usageNamesLoop : Nat → List SimpleIdentifier → State →
    ParseResult (List SimpleIdentifier)
  | 0, _, _ => .err .outOfFuel
  | fuel + 1, acc, s =>
    if (current s).kind ≠ .semiColon ∧ (current s).kind ≠ .leftBrace then
      match full_type_name s with
      | .err e => .err e
      | .ok t s1 =>
        let acc1 := acc ++ [t]
        if (current s1).kind = .comma then
          if (peek s1).kind = .semiColon then
            match skip_semicolon s1 with
            | .err e => .err e
            | .ok _ s2 => usageNamesLoop fuel acc1 s2
          else if (peek s1).kind = .leftBrace then
            match skip_left_brace s1 with
            | .err e => .err e
            | .ok _ s2 => usageNamesLoop fuel acc1 s2
          else usageNamesLoop fuel acc1 (next s1)
        else .ok acc1 s1
    else .ok acc s

/-- The inner `insteadof` list loop (traits.rs lines 122-136): further type
names separated by commas, with the same trailing-comma redirection. -/
def insteadofLoop : Nat → List SimpleIdentifier → State →
    ParseResult (List SimpleIdentifier)
  | 0, _, _ => .err .outOfFuel
  | fuel + 1, acc, s =>
    if (current s).kind ≠ .semiColon then
      match full_type_name s with
      | .err e => .err e
      | .ok t s1 =>
        let acc1 := acc ++ [t]
        if (current s1).kind = .comma then
          if (peek s1).kind = .semiColon then
            match skip_semicolon s1 with
            | .err e => .err e
            | .ok _ s2 => insteadofLoop fuel acc1 s2
          else insteadofLoop fuel acc1 (next s1)
        else .ok acc1 s1
    else .ok acc s

/-- One adaptation of a trait-use body (traits.rs lines 57-147): an
optional `Trait::` qualifier and a method name, then `as` with an optional
visibility and optional new name, or `insteadof` with a name list; each
adaptation is followed by `;`. -/
def usageOneAdaptation (fuel : Nat) (s : State) : ParseResult TraitUsageAdaptation :=
  match
    ((if (peek s).kind = .doubleColon then
      match full_type_name s with
      | .err e => .err e
      | .ok t s1 =>
        match identifierP (next s1) with
        | .err e => .err e
        | .ok m s2 => .ok (some t, m) s2
    else
      match identifierP s with
      | .err e => .err e
      | .ok m s1 => .ok ((none : Option SimpleIdentifier), m) s1) :
      ParseResult (Option SimpleIdentifier × SimpleIdentifier)) with
  | .err e => .err e
  | .ok (traitName, methodName) s2 =>
    if (current s2).kind = .asKw then
      let s3 := next s2
      let c3 := current s3
      if c3.kind = .publicKw ∨ c3.kind = .protectedKw ∨ c3.kind = .privateKw then
        let vis : VisibilityModifier :=
          if c3.kind = .publicKw then .publicM c3.span
          else if c3.kind = .protectedKw then .protectedM c3.span
          else .privateM c3.span
        let s4 := next s3
        if (current s4).kind = .semiColon then
          .ok (.visibility traitName methodName vis) s4
        else
          match nameP s4 with
          | .err e => .err e
          | .ok aliasName s5 =>
            .ok (.alias traitName methodName aliasName (some vis)) s5
      else
        match nameP s3 with
        | .err e => .err e
        | .ok aliasName s4 => .ok (.alias traitName methodName aliasName none) s4
    else if (current s2).kind = .insteadof then
      let s3 := next s2
      match full_type_name s3 with
      | .err e => .err e
      | .ok first s4 =>
        if (current s4).kind = .comma then
          if (peek s4).kind = .semiColon then
            match skip_semicolon s4 with
            | .err e => .err e
            | .ok _ s5 =>
              match insteadofLoop fuel [first] (next s5) with
              | .err e => .err e
              | .ok insteadofList s6 =>
                .ok (.precedence traitName methodName insteadofList) s6
          else
            match insteadofLoop fuel [first] (next s4) with
            | .err e => .err e
            | .ok insteadofList s5 =>
              .ok (.precedence traitName methodName insteadofList) s5
        else .ok (.precedence traitName methodName [first]) s4
    else
      .err (.expectedToken ["as", "insteadof"] (current s2).value (current s2).span)

/-- The adaptation-body loop of `usage` (traits.rs lines 57-148): until the
closing `}`, one adaptation followed by a skipped `;`. -/
def usageAdaptationsLoop : Nat → List TraitUsageAdaptation → State →
    ParseResult (List TraitUsageAdaptation)
  | 0, _, _ => .err .outOfFuel
  | fuel + 1, acc, s =>
    if (current s).kind = .rightBrace then .ok acc s
    else
      match usageOneAdaptation fuel s with
      | .err e => .err e
      | .ok a s1 =>
        match skip_semicolon s1 with
        | .err e => .err e
        | .ok _ s2 => usageAdaptationsLoop fuel (acc ++ [a]) s2

/-- `usage` (trait-use inside a class-like): `use` span, the trait-name
list, then either an adaptation body in braces or a terminating `;`. -/
def usageF : Nat → State → ParseResult TraitUsage
  | 0, _ => .err .outOfFuel
  | fuel + 1, s =>
    match skip .useKw s with
    | .err e => .err e
    | .ok useSpan s1 =>
      match usageNamesLoop fuel [] s1 with
      | .err e => .err e
      | .ok traits s2 =>
        if (current s2).kind = .leftBrace then
          match skip_left_brace s2 with
          | .err e => .err e
          | .ok _ s3 =>
            match usageAdaptationsLoop fuel [] s3 with
            | .err e => .err e
            | .ok adaptations s4 =>
              match skip_right_brace s4 with
              | .err e => .err e
              | .ok _ s5 => .ok ⟨useSpan, traits, adaptations⟩ s5
        else
          match skip_semicolon s2 with
          | .err e => .err e
          | .ok _ s3 => .ok ⟨useSpan, traits, []⟩ s3

/-- Modelled from the spec: `attributes::gather_attributes` is not in the
shown sources; it collects zero or more pending attribute groups at the
current position and reports whether any were gathered. -/
def gather_attributesAux : State → Bool → Bool × State
  | [], b => (b, [])
  | t :: rest, b =>
    if t.kind = .attributeTok then gather_attributesAux rest true
    else (b, t :: rest)

/-- Modelled from the spec: `gather_attributes` wrapper returning the flag
and the advanced state. -/
def gather_attributes (s : State) : Bool × State := gather_attributesAux s false

/-- Modelled from the spec: `modifiers::collect` is not in the shown
sources; it collects zero or more member modifier tokens. -/
def isModifierKind : TokenKind → Bool
  | .publicKw => true
  | .protectedKw => true
  | .privateKw => true
  | .staticKw => true
  | .abstractKw => true
  | .finalKw => true
  | .readonlyKw => true
  | _ => false

/-- Modelled from the spec: the modifier-collection loop. -/
def modifiers_collect : State → List (TokenKind × Span) × State
  | [] => ([], [])
  | t :: rest =>
    if isModifierKind t.kind then
      let (ms, s1) := modifiers_collect rest
      ((t.kind, t.span) :: ms, s1)
    else ([], t :: rest)

/-- A trait member, following the `TraitMember` variants of the source;
the payloads of the members whose productions are not in the shown sources
are reduced to the parsed names. -/
inductive TraitMember where
  | traitUsage (u : TraitUsage)
  | variableProperty (v : SimpleVariable)
  | property (v : SimpleVariable)
  | constant (name : SimpleIdentifier)
  | abstractMethod (name : SimpleIdentifier)
  | concreteMethod (name : SimpleIdentifier)
  | abstractConstructor (name : SimpleIdentifier)
  | concreteConstructor (name : SimpleIdentifier)
deriving DecidableEq, Repr

/-- Modelled from the spec: `properties::parse_var` (legacy `var` form) is
not in the shown sources; `var`, a variable, `;`. -/
def properties_parse_var (s : State) : ParseResult SimpleVariable :=
  match skip .varKw s with
  | .err e => .err e
  | .ok _ s1 =>
    match simple_variable s1 with
    | .err e => .err e
    | .ok v s2 =>
      match skip_semicolon s2 with
      | .err e => .err e
      | .ok _ s3 => .ok v s3

/-- Modelled from the spec: `properties::parse` is not in the shown
sources; a property declaration requires a variable, then `;`. -/
def properties_parse (s : State) : ParseResult SimpleVariable :=
  match simple_variable s with
  | .err e => .err e
  | .ok v s1 =>
    match skip_semicolon s1 with
    | .err e => .err e
    | .ok _ s2 => .ok v s2

/-- Modelled from the spec: `constants::classish` is not in the shown
sources; `const`, a name, `;`. -/
def constants_classish (s : State) : ParseResult SimpleIdentifier :=
  match skip .constKw s with
  | .err e => .err e
  | .ok _ s1 =>
    match identifierP s1 with
    | .err e => .err e
    | .ok n s2 =>
      match skip_semicolon s2 with
      | .err e => .err e
      | .ok _ s3 => .ok n s3

/-- Modelled from the spec: the `method` production is not in the shown
sources; `function`, a name, `( )`, then a `{ }` body (concrete) or `;`
(abstract), with constructors recognized by the name `__construct`. -/
def methodP (s : State) : ParseResult TraitMember :=
  match skip .functionKw s with
  | .err e => .err e
  | .ok _ s1 =>
    match identifierP s1 with
    | .err e => .err e
    | .ok n s2 =>
      match skip .leftParen s2 with
      | .err e => .err e
      | .ok _ s3 =>
        match skip .rightParen s3 with
        | .err e => .err e
        | .ok _ s4 =>
          if (current s4).kind = .leftBrace then
            match skip_left_brace (s4 : State) with
            | .err e => .err e
            | .ok _ s5 =>
              match skip_right_brace s5 with
              | .err e => .err e
              | .ok _ s6 =>
                if n.value = "__construct" then .ok (.concreteConstructor n) s6
                else .ok (.concreteMethod n) s6
          else
            match skip_semicolon s4 with
            | .err e => .err e
            | .ok _ s5 =>
              if n.value = "__construct" then .ok (.abstractConstructor n) s5
              else .ok (.abstractMethod n) s5

/-- The trait `member` dispatch (traits.rs lines 187-227): gather pending
attributes; the trait-use production is entered only when no attributes
were gathered and the current token is `use`; then the `var`, `const`,
`function` and property branches follow in order. -/
def memberF (fuel : Nat) (className : SimpleIdentifier) (s : State) :
    ParseResult TraitMember :=
  let (has_attributes, s1) := gather_attributes s
  if has_attributes = false ∧ (current s1).kind = .useKw then
    presMap TraitMember.traitUsage (usageF fuel s1)
  else if (current s1).kind = .varKw then
    presMap TraitMember.variableProperty (properties_parse_var s1)
  else
    let (mods, s2) := modifiers_collect s1
    if (current s2).kind = .constKw then
      presMap TraitMember.constant (constants_classish s2)
    else if (current s2).kind = .functionKw then
      methodP s2
    else
      presMap TraitMember.property (properties_parse s2)

/-- `UnbracedNamespace`: `namespace Foo; *statements*`. -/
structure UnbracedNamespace where
  start : Span
  name : SimpleIdentifier
  stop : Span
  statements : List Statement
deriving Repr

/-- `BracedNamespaceBody`: `{ *statements* }`. -/
structure BracedNamespaceBody where
  start : Span
  stop : Span
  statements : List Statement
deriving Repr

/-- `BracedNamespace`: `namespace Foo { *statements* }`. -/
structure BracedNamespace where
  namespaceSpan : Span
  name : Option SimpleIdentifier
  body : BracedNamespaceBody
deriving Repr

/-- `NamespaceStatement`: the unbraced or braced variant. -/
inductive NamespaceStatement where
  | unbraced (n : UnbracedNamespace)
  | braced (n : BracedNamespace)
deriving Repr

/-- The lexical format of a comment. -/
inductive CommentFormat where
  | singleLine
  | multiLine
  | hashMark
  | document
deriving DecidableEq, Repr

/-- `Comment { span, format, content }`. -/
structure Comment where
  span : Span
  format : CommentFormat
  content : String
deriving DecidableEq, Repr

/-- The union of node types over which the `Node::children` capability is
embedded (Rust's `&mut dyn Node`). -/
inductive AstNode where
  | statementN (s : Statement)
  | expressionN (e : Expression)
  | literalIntegerN (l : LiteralInteger)
  | levelN (l : Level)
  | simpleIdentifierN (i : SimpleIdentifier)
  | foreachStatementN (f : ForeachStatement)
  | foreachIteratorN (i : ForeachStatementIterator)
  | foreachBodyN (b : ForeachStatementBody)
  | forStatementN (f : ForStatement)
  | forIteratorN (i : ForStatementIterator)
  | forBodyN (b : ForStatementBody)
  | whileStatementN (w : WhileStatement)
  | whileBodyN (b : WhileStatementBody)
  | doWhileStatementN (d : DoWhileStatement)
  | breakStatementN (breakSpan : Span) (level : Option Level) (ending : Ending)
  | continueStatementN (continueSpan : Span) (level : Option Level) (ending : Ending)
  | commaSeparatedExprN (c : CommaSeparated Expression)
  | commentN (c : Comment)
  | unbracedNamespaceN (n : UnbracedNamespace)
  | bracedNamespaceN (n : BracedNamespace)
  | bracedNamespaceBodyN (n : BracedNamespaceBody)
  | namespaceStatementN (n : NamespaceStatement)
deriving Repr

/-- A coarse classification of `AstNode`, used to state which node kind a
`children()` call returned. -/
inductive NodeTag where
  | statementT
  | expressionT
  | literalIntegerT
  | levelT
  | simpleIdentifierT
  | foreachStatementT
  | foreachIteratorT
  | foreachBodyT
  | forStatementT
  | forIteratorT
  | forBodyT
  | whileStatementT
  | whileBodyT
  | doWhileStatementT
  | breakStatementT
  | continueStatementT
  | commaSeparatedExprT
  | commentT
  | unbracedNamespaceT
  | bracedNamespaceT
  | bracedNamespaceBodyT
  | namespaceStatementT
deriving DecidableEq, Repr

/-- The classification map from nodes to tags. -/
def nodeTag : AstNode → NodeTag
  | .statementN _ => .statementT
  | .expressionN _ => .expressionT
  | .literalIntegerN _ => .literalIntegerT
  | .levelN _ => .levelT
  | .simpleIdentifierN _ => .simpleIdentifierT
  | .foreachStatementN _ => .foreachStatementT
  | .foreachIteratorN _ => .foreachIteratorT
  | .foreachBodyN _ => .foreachBodyT
  | .forStatementN _ => .forStatementT
  | .forIteratorN _ => .forIteratorT
  | .forBodyN _ => .forBodyT
  | .whileStatementN _ => .whileStatementT
  | .whileBodyN _ => .whileBodyT
  | .doWhileStatementN _ => .doWhileStatementT
  | .breakStatementN _ _ _ => .breakStatementT
  | .continueStatementN _ _ _ => .continueStatementT
  | .commaSeparatedExprN _ => .commaSeparatedExprT
  | .commentN _ => .commentT
  | .unbracedNamespaceN _ => .unbracedNamespaceT
  | .bracedNamespaceN _ => .bracedNamespaceT
  | .bracedNamespaceBodyN _ => .bracedNamespaceBodyT
  | .namespaceStatementN _ => .namespaceStatementT

/-- `impl Node for Level` (loops.rs lines 225-232): the literal arm yields
the literal; the parenthesized arm returns `level.children()` of the inner
level, not the inner level itself. -/
def Level.children : Level → List AstNode
  | .literal lit => [.literalIntegerN lit]
  | .parenthesized _ l _ => Level.children l

/-- `impl Node for ForeachStatement` (loops.rs lines 19-23). -/
def ForeachStatement.children : ForeachStatement → List AstNode
  | .mk _ _ it _ b => [.foreachIteratorN it, .foreachBodyN b]

/-- `impl Node for ForeachStatementIterator` (loops.rs lines 46-62). -/
def ForeachStatementIterator.children : ForeachStatementIterator → List AstNode
  | .value e _ _ v => [.expressionN e, .expressionN v]
  | .keyAndValue e _ _ k _ v => [.expressionN e, .expressionN k, .expressionN v]

/-- `impl Node for ForeachStatementBody` (loops.rs lines 78-87). -/
def ForeachStatementBody.children : ForeachStatementBody → List AstNode
  | .statement st => [.statementN st]
  | .block _ sts _ _ => sts.map .statementN

/-- `impl Node for ForStatement` (loops.rs lines 99-103). -/
def ForStatement.children : ForStatement → List AstNode
  | .mk _ _ it _ b => [.forIteratorN it, .forBodyN b]

/-- `impl Node for ForStatementIterator` (loops.rs lines 115-128). -/
def ForStatementIterator.children (i : ForStatementIterator) : List AstNode :=
  i.initializations.inner.map .expressionN ++ i.conditions.inner.map .expressionN
    ++ i.loopExprs.inner.map .expressionN

/-- `impl Node for ForStatementBody` (loops.rs lines 144-153). -/
def ForStatementBody.children : ForStatementBody → List AstNode
  | .statement st => [.statementN st]
  | .block _ sts _ _ => sts.map .statementN

/-- `impl Node for DoWhileStatement` (loops.rs lines 167-171). -/
def DoWhileStatement.children : DoWhileStatement → List AstNode
  | .mk _ body _ _ cond _ _ => [.statementN body, .expressionN cond]

/-- `impl Node for WhileStatement` (loops.rs lines 183-187). -/
def WhileStatement.children : WhileStatement → List AstNode
  | .mk _ _ cond _ b => [.expressionN cond, .whileBodyN b]

/-- `impl Node for WhileStatementBody` (loops.rs lines 203-212). -/
def WhileStatementBody.children : WhileStatementBody → List AstNode
  | .statement st => [.statementN st]
  | .block _ sts _ _ => sts.map .statementN

/-- `impl Node for BreakStatement` (loops.rs lines 242-249), on the
`breakStatementN` fields. -/
def breakStatementChildren (level : Option Level) : List AstNode :=
  match level with
  | some l => [.levelN l]
  | none => []

/-- `impl Node for ContinueStatement` (loops.rs lines 259-266). -/
def continueStatementChildren (level : Option Level) : List AstNode :=
  match level with
  | some l => [.levelN l]
  | none => []

/-- `impl<T: Node> Node for CommaSeparated<T>` (utils.rs lines 24-28), at
`T = Expression`. -/
def CommaSeparated.childrenE (c : CommaSeparated Expression) : List AstNode :=
  c.inner.map .expressionN

/-- `impl Node for Comment` (comments.rs line 24): the default (leaf)
implementation, returning no children. -/
def Comment.children (c : Comment) : List AstNode := []

/-- `impl Node for UnbracedNamespace` (namespaces.rs lines 15-26). -/
def UnbracedNamespace.children (n : UnbracedNamespace) : List AstNode :=
  .simpleIdentifierN n.name :: n.statements.map .statementN

/-- `impl Node for BracedNamespace` (namespaces.rs lines 36-45). -/
def BracedNamespace.children (n : BracedNamespace) : List AstNode :=
  (match n.name with
   | some name => [.simpleIdentifierN name]
   | none => []) ++ [.bracedNamespaceBodyN n.body]

/-- `impl Node for BracedNamespaceBody` (namespaces.rs lines 55-62). -/
def BracedNamespaceBody.children (n : BracedNamespaceBody) : List AstNode :=
  n.statements.map .statementN

/-- `impl Node for NamespaceStatement` (namespaces.rs lines 71-78): the
variant delegates to the active arm. -/
def NamespaceStatement.children : NamespaceStatement → List AstNode
  | .unbraced n => [.unbracedNamespaceN n]
  | .braced n => [.bracedNamespaceN n]

/-- The lexer's `SyntaxError` type (error.rs lines 8-20); byte payloads are
carried as `Nat`. -/
inductive SyntaxError where
  | unexpectedEndOfFile (span : Span)
  | unexpectedError (span : Span)
  | unexpectedCharacter (char : Nat) (span : Span)
  | invalidHaltCompiler (span : Span)
  | invalidOctalEscape (span : Span)
  | invalidOctalLiteral (span : Span)
  | invalidUnicodeEscape (span : Span)
  | unpredictableState (span : Span)
  | invalidDocIndentation (span : Span)
  | invalidDocBodyIndentationLevel (expected : Nat) (span : Span)
  | unrecognisedToken (token : Nat) (span : Span)
deriving DecidableEq, Repr

/-- The `span()` accessor of `SyntaxError` (error.rs lines 22-38). -/
def SyntaxError.span : SyntaxError → Span
  | .unexpectedEndOfFile span => span
  | .unexpectedError span => span
  | .unexpectedCharacter _ span => span
  | .invalidHaltCompiler span => span
  | .invalidOctalEscape span => span
  | .invalidOctalLiteral span => span
  | .invalidUnicodeEscape span => span
  | .unpredictableState span => span
  | .invalidDocIndentation span => span
  | .invalidDocBodyIndentationLevel _ span => span
  | .unrecognisedToken _ span => span

/-- The apostrophe character, built by code point to keep the source free
of quote literals. -/
def quoteChar : Char := Char.ofNat 39

/-- Rust's `{:?}` rendering of `*char as char`: the character between
single quotes (escape sequences of the `Debug` impl are abstracted). -/
def charDebug (b : Nat) : String :=
  String.singleton quoteChar ++ String.singleton (Char.ofNat b) ++ String.singleton quoteChar

/-- The `Display` implementation of `SyntaxError` (error.rs lines 40-103),
message by message.  Concatenations are grouped to the right so that the
line and column fragments are syntactically visible. -/
def SyntaxError.rendered : SyntaxError → String
  | .unexpectedEndOfFile span =>
    "Syntax Error: unexpected end of file on line " ++
      (toString span.start.line ++ (" column " ++ toString span.start.column))
  | .unexpectedError span =>
    "Syntax Error: unexpected error on line " ++
      (toString span.start.line ++ (" column " ++ toString span.start.column))
  | .unexpectedCharacter ch span =>
    "Syntax Error: unexpected character `" ++
      (charDebug ch ++ ("` on line " ++
        (toString span.start.line ++ (" column " ++ toString span.start.column))))
  | .invalidHaltCompiler span =>
    "Syntax Error: invalid halt compiler on line " ++
      (toString span.start.line ++ (" column " ++ toString span.start.column))
  | .invalidOctalEscape span =>
    "Syntax Error: invalid octal escape on line " ++
      (toString span.start.line ++ (" column " ++ toString span.start.column))
  | .invalidOctalLiteral span =>
    "Syntax Error: invalid octal literal on line " ++
      (toString span.start.line ++ (" column " ++ toString span.start.column))
  | .invalidUnicodeEscape span =>
    "Syntax Error: invalid unicode escape on line " ++
      (toString span.start.line ++ (" column " ++ toString span.start.column))
  | .unpredictableState span =>
    "Syntax Error: Reached an unpredictable state on line " ++
      (toString span.start.line ++ (" column " ++ toString span.start.column))
  | .invalidDocIndentation span =>
    "Syntax Error: Invalid indentation - cannot use tabs and spaces on line " ++
      toString span.start.line
  | .invalidDocBodyIndentationLevel expected span =>
    "Syntax Error: Invalid body indentation level - expecting an indentation level of at least " ++
      (toString expected ++ (" on line " ++ toString span.start.line))
  | .unrecognisedToken tok span =>
    "Syntax Error: Unrecognised token " ++
      (toString tok ++ (" on line " ++
        (toString span.start.line ++ (" column " ++ toString span.start.column))))

/-- Whether a `SyntaxError` is one of the two doc-indentation variants,
whose messages carry no column. -/
def SyntaxError.isDocIndentationKind : SyntaxError → Bool
  | .invalidDocIndentation _ => true
  | .invalidDocBodyIndentationLevel _ _ => true
  | _ => false

/-- Substring containment, on the underlying character lists. -/
def containsSub (pat s : String) : Prop := pat.data <:+: s.data

/-- A token whose span covers offset `i`, on line 1 at column `i + 1`. -/
def mkTok (k : TokenKind) (i : Nat) (v : String) : Token :=
  { kind := k, span := ⟨⟨1, i + 1, i⟩, ⟨1, i + 2, i + 1⟩⟩, value := v }

/-- The span of `mkTok _ i _`. -/
def tokSpan (i : Nat) : Span := ⟨⟨1, i + 1, i⟩, ⟨1, i + 2, i + 1⟩⟩

/-- The token stream of `foreach ($xs as &$k => $v) {}`. -/
def c1Tokens : State :=
  [mkTok .foreach 0 "foreach", mkTok .leftParen 1 "(", mkTok .variableTok 2 "$xs",
   mkTok .asKw 3 "as", mkTok .ampersand 4 "&", mkTok .variableTok 5 "$k",
   mkTok .doubleArrow 6 "=>", mkTok .variableTok 7 "$v", mkTok .rightParen 8 ")",
   mkTok .leftBrace 9 "\x7b", mkTok .rightBrace 10 "\x7d", mkTok .eof 11 ""]

/-- The `ampersand` field of the `KeyAndValue` iterator of a successfully
parsed foreach statement, when the result has that shape. -/
def resultIteratorAmpersand : ParseResult Statement → Option (Option Span)
  | .ok (.foreach (.mk _ _ (.keyAndValue _ _ amp _ _ _) _ _)) _ => some amp
  | _ => none

/-- The header tokens `$xs as $k => $v` of a foreach iterator. -/
def c2Tokens : State :=
  [mkTok .variableTok 0 "$xs", mkTok .asKw 1 "as", mkTok .variableTok 2 "$k",
   mkTok .doubleArrow 3 "=>", mkTok .variableTok 4 "$v", mkTok .eof 5 ""]

/-- The token stream of `use A,;` (inside a trait body). -/
def c4Tokens : State :=
  [mkTok .useKw 0 "use", mkTok .identifier 1 "A", mkTok .comma 2 ",",
   mkTok .semiColon 3 ";", mkTok .eof 4 ""]

/-- The token stream of `foreach ($x as $v) ;`. -/
def c5ForeachTokens : State :=
  [mkTok .foreach 0 "foreach", mkTok .leftParen 1 "(", mkTok .variableTok 2 "$x",
   mkTok .asKw 3 "as", mkTok .variableTok 4 "$v", mkTok .rightParen 5 ")",
   mkTok .semiColon 6 ";", mkTok .eof 7 ""]

/-- The token stream of `for (;;) ;`. -/
def c5ForTokens : State :=
  [mkTok .forKw 0 "for", mkTok .leftParen 1 "(", mkTok .semiColon 2 ";",
   mkTok .semiColon 3 ";", mkTok .rightParen 4 ")", mkTok .semiColon 5 ";",
   mkTok .eof 6 ""]

/-- The token stream of `while ($x) : endwhile ;`. -/
def c5WhileTokens : State :=
  [mkTok .whileKw 0 "while", mkTok .leftParen 1 "(", mkTok .variableTok 2 "$x",
   mkTok .rightParen 3 ")", mkTok .colon 4 ":", mkTok .endWhile 5 "endwhile",
   mkTok .semiColon 6 ";", mkTok .eof 7 ""]

/-- The inner tokens `$x }` following either encoding of `${`. -/
def c6InnerTokens : State :=
  [mkTok .variableTok 1 "$x", mkTok .rightBrace 2 "\x7d"]

/-- If the current token is not the EOF sentinel, the stream is nonempty
and `next` strictly shortens it. -/
theorem next_length_lt (s : State) (h : (current s).kind ≠ .eof) :
    (next s).length < s.length := by
  cases s with
  | nil => exact absurd rfl h
  | cons t rest => simp [next]

/-- `next` never lengthens the stream. -/
theorem next_length_le (s : State) : (next s).length ≤ s.length := by
  cases s with
  | nil => simp [next]
  | cons t rest => simp [next]

/-- `expressions_create` never reports fuel exhaustion. -/
theorem expressions_create_not_outOfFuel (s : State) :
    ∀ e, expressions_create s = .err e → e ≠ .outOfFuel := by
  intro e h
  simp only [expressions_create] at h
  split at h
  · exact absurd h (by simp)
  · split at h
    · exact absurd h (by simp)
    · simp only [ParseResult.err.injEq] at h
      subst h
      simp

/-- `skip` never reports fuel exhaustion. -/
theorem skip_not_outOfFuel (k : TokenKind) (s : State) :
    ∀ e, skip k s = .err e → e ≠ .outOfFuel := by
  intro e h
  unfold skip at h
  split at h
  · exact absurd h (by simp)
  · simp only [ParseResult.err.injEq] at h
    subst h
    simp

/-- C1 (counterexample): on the tokens of `foreach ($xs as &$k => $v) {}`
the parsed `KeyAndValue` iterator stores `ampersand = none`, not the span
of the `&` token at offset 4 as the claim states: the inner binding read
after `=>` shadows the outer one and the first `&` span is dropped. -/
theorem c1_counterexample :
    resultIteratorAmpersand (foreach_statementF 5 c1Tokens) = some none ∧
    resultIteratorAmpersand (foreach_statementF 5 c1Tokens) ≠ some (some (tokSpan 4)) := by
  constructor
  · rfl
  · decide

/-- C1 (amended): for the input tokens of `foreach ($xs as &$k => $v) {}`,
`foreach_statement` returns Ok with a `KeyAndValue` iterator whose
`ampersand` is `none` (the `&` before the key is consumed but its span is
not recorded; the field records only an `&` appearing after `=>`), whose
key is `$k` and value is `$v`, and whose body is the `Statement` (non-Block)
form holding the empty compound block. -/
theorem c1_foreach_key_value_parse :
    foreach_statementF 5 c1Tokens =
      .ok (.foreach (.mk (tokSpan 0) (tokSpan 1)
        (.keyAndValue (.variableE (.simpleVariable ⟨tokSpan 2, "$xs"⟩)) (tokSpan 3) none
          (.variableE (.simpleVariable ⟨tokSpan 5, "$k"⟩)) (tokSpan 6)
          (.variableE (.simpleVariable ⟨tokSpan 7, "$v"⟩)))
        (tokSpan 8)
        (.statement (.block (tokSpan 9) [] (tokSpan 10)))))
      [mkTok .eof 11 ""] := rfl

/-- C3: in the trait `member` production, when attribute groups were
gathered and the current token is `use`, the member is not parsed by the
`usage` production and parsing fails with an error (the dispatch falls
through to the property production, which rejects `use`); otherwise, when
the current token is `use`, the member is parsed by `usage` and emitted as
`TraitMember::TraitUsage`. -/
theorem c3_member_use_dispatch :
    (∀ (fuel : Nat) (cn : SimpleIdentifier) (spA spU : Span) (vA vU : String)
      (rest : State),
      memberF fuel cn (⟨.attributeTok, spA, vA⟩ :: ⟨.useKw, spU, vU⟩ :: rest) =
        .err (.expectedToken ["a variable"] vU spU)) ∧
    (∀ (fuel : Nat) (cn : SimpleIdentifier) (spU : Span) (vU : String) (rest : State),
      memberF fuel cn (⟨.useKw, spU, vU⟩ :: rest) =
        presMap TraitMember.traitUsage (usageF fuel (⟨.useKw, spU, vU⟩ :: rest))) := by
  constructor
  · intro fuel cn spA spU vA vU rest
    simp [memberF, gather_attributes, gather_attributesAux, modifiers_collect,
      isModifierKind, properties_parse, simple_variable, current, next, presMap]
  · intro fuel cn spU vU rest
    simp [memberF, gather_attributes, gather_attributesAux, current]

/-- C6: `dynamic_variable` accepts both lexer encodings of a braced
variable-variable — a single `DollarLeftBrace` token, and a `Dollar`
followed by `LeftBrace` — and when the leading token carries the same
start span (the only part of the prefix the production reads), it returns
the identical result on the same inner tokens; on a concrete `${ $x }`
both encodings yield the same `BracedVariableVariable` with equal start
span, inner expression and closing-brace end span. -/
theorem c6_dynamic_variable_both_encodings :
    (∀ (fuel : Nat) (st : Span) (v1 v2 v3 : String) (sp2 : Span) (rest : State),
      dynamic_variableF fuel (⟨.dollarLeftBrace, st, v1⟩ :: rest) =
        dynamic_variableF fuel (⟨.dollar, st, v2⟩ :: ⟨.leftBrace, sp2, v3⟩ :: rest)) ∧
    (dynamic_variableF 1 (mkTok .dollarLeftBrace 0 "$\x7b" :: c6InnerTokens) =
      .ok (.bracedVariableVariable (tokSpan 0)
        (.variableE (.simpleVariable ⟨tokSpan 1, "$x"⟩)) (tokSpan 2)) [] ∧
     dynamic_variableF 1 (mkTok .dollar 0 "$" :: mkTok .leftBrace 0 "\x7b" :: c6InnerTokens) =
      .ok (.bracedVariableVariable (tokSpan 0)
        (.variableE (.simpleVariable ⟨tokSpan 1, "$x"⟩)) (tokSpan 2)) []) := by
  refine ⟨?_, rfl, rfl⟩
  intro fuel st v1 v2 v3 sp2 rest
  cases fuel with
  | zero => rfl
  | succ n => simp [dynamic_variableF, current, peek, next]

/-- C7 (counterexample): `children()` of a `Level::Parenthesized` does not
yield its direct child `Level`: on the concrete level `((2))`-style value
`Parenthesized(Literal 2)`, it returns the `LiteralInteger` node found by
delegating to the inner level's own `children()`, skipping the `Level`
layer. -/
theorem c7_counterexample :
    Level.children (.parenthesized (tokSpan 0) (.literal ⟨"2", tokSpan 1⟩) (tokSpan 2)) =
      [.literalIntegerN ⟨"2", tokSpan 1⟩] ∧
    Level.children (.parenthesized (tokSpan 0) (.literal ⟨"2", tokSpan 1⟩) (tokSpan 2)) ≠
      [.levelN (.literal ⟨"2", tokSpan 1⟩)] := by
  refine ⟨rfl, ?_⟩
  intro h
  simp only [Level.children] at h
  injection h with h1 _
  exact AstNode.noConfusion h1

/-- C7 (amended): every embedded `children()` implementation yields the
direct child nodes in source order — aggregates list their children,
variants delegate to the active arm, leaves return the empty list — with
the exception of `Level::Parenthesized`, whose `children()` returns the
children of its inner level (recursively, the innermost `LiteralInteger`),
skipping the intermediate `Level` layers. -/
theorem c7_children_direct :
    (∀ (lp rp : Span) (l : Level),
      Level.children (.parenthesized lp l rp) = Level.children l) ∧
    (∀ (i : LiteralInteger), Level.children (.literal i) = [.literalIntegerN i]) ∧
    (∀ (st : Statement), ForeachStatementBody.children (.statement st) = [.statementN st]) ∧
    (∀ (c : Span) (sts : List Statement) (e : Span) (en : Ending),
      ForeachStatementBody.children (.block c sts e en) = sts.map AstNode.statementN) ∧
    (∀ (f lp : Span) (it : ForeachStatementIterator) (rp : Span) (b : ForeachStatementBody),
      ForeachStatement.children (.mk f lp it rp b) = [.foreachIteratorN it, .foreachBodyN b]) ∧
    (∀ (e : Expression) (a : Span) (amp : Option Span) (v : Expression),
      ForeachStatementIterator.children (.value e a amp v) = [.expressionN e, .expressionN v]) ∧
    (∀ (e : Expression) (a : Span) (amp : Option Span) (k : Expression) (d : Span)
      (v : Expression),
      ForeachStatementIterator.children (.keyAndValue e a amp k d v) =
        [.expressionN e, .expressionN k, .expressionN v]) ∧
    (∀ (st : Statement), WhileStatementBody.children (.statement st) = [.statementN st]) ∧
    (∀ (n : UnbracedNamespace),
      NamespaceStatement.children (.unbraced n) = [.unbracedNamespaceN n]) ∧
    (∀ (lvl : Level), breakStatementChildren (some lvl) = [.levelN lvl]) ∧
    breakStatementChildren none = [] ∧
    (∀ (c : Comment), Comment.children c = []) ∧
    (∀ (c : CommaSeparated Expression),
      CommaSeparated.childrenE c = c.inner.map AstNode.expressionN) := by
  refine ⟨?_, ?_, ?_, ?_, ?_, ?_, ?_, ?_, ?_, ?_, rfl, ?_, ?_⟩ <;> intros <;> rfl

/-- C9: the `usage` production accepts a trait-use with zero trait names:
when the token after `use` is `;`, it returns Ok with an empty trait list,
and likewise for `{` immediately followed by `}`. -/
theorem c9_usage_zero_traits :
    (∀ (fuel : Nat) (sp1 sp2 : Span) (v1 v2 : String) (rest : State),
      usageF (fuel + 2) (⟨.useKw, sp1, v1⟩ :: ⟨.semiColon, sp2, v2⟩ :: rest) =
        .ok ⟨sp1, [], []⟩ rest) ∧
    (∀ (fuel : Nat) (sp1 sp2 sp3 : Span) (v1 v2 v3 : String) (rest : State),
      usageF (fuel + 2) (⟨.useKw, sp1, v1⟩ :: ⟨.leftBrace, sp2, v2⟩ ::
          ⟨.rightBrace, sp3, v3⟩ :: rest) =
        .ok ⟨sp1, [], []⟩ rest) := by
  constructor
  · intro fuel sp1 sp2 v1 v2 rest
    simp [usageF, usageNamesLoop, skip, skip_semicolon, current, next]
  · intro fuel sp1 sp2 sp3 v1 v2 v3 rest
    simp [usageF, usageNamesLoop, usageAdaptationsLoop, skip, skip_left_brace,
      skip_right_brace, current, next]

/-- The character data of a string concatenation. -/
theorem string_data_append : ∀ (a b : String), (a ++ b).data = a.data ++ b.data
  | ⟨_⟩, ⟨_⟩ => rfl

/-- Every string is a substring of itself. -/
theorem containsSub_refl (x : String) : containsSub x x :=
  ⟨[], [], by simp⟩

/-- A string is a substring of itself followed by anything. -/
theorem containsSub_front (x b : String) : containsSub x (x ++ b) :=
  ⟨[], b.data, by simp [string_data_append]⟩

/-- Substring containment is preserved by prepending. -/
theorem containsSub_append_left (s : String) {x t : String} (h : containsSub x t) :
    containsSub x (s ++ t) := by
  obtain ⟨u, v, huv⟩ := h
  exact ⟨s.data ++ u, v, by rw [string_data_append, ← huv]; simp⟩

set_option maxRecDepth 8192 in
/-- C8 (counterexample): the rendered message of an `InvalidDocIndentation`
error whose span starts at line 2, column 5 does not contain the column
number: the claim fails for this variant (and for
`InvalidDocBodyIndentationLevel`), whose messages print only the line. -/
theorem c8_counterexample :
    ¬ containsSub
      (toString (SyntaxError.invalidDocIndentation ⟨⟨2, 5, 4⟩, ⟨2, 6, 5⟩⟩).span.start.column)
      (SyntaxError.invalidDocIndentation ⟨⟨2, 5, 4⟩, ⟨2, 6, 5⟩⟩).rendered := by
  simp only [containsSub]
  decide

/-- C8 (amended): the rendered message of every `SyntaxError` contains the
1-based line number from the start of its span, and — except for the two
doc-indentation variants, whose messages carry no column — also the
1-based column number from the start of its span. -/
theorem c8_rendered_line_column (e : SyntaxError) :
    containsSub (toString e.span.start.line) e.rendered ∧
    (e.isDocIndentationKind = true ∨
      containsSub (toString e.span.start.column) e.rendered) := by
  cases e with
  | unexpectedEndOfFile sp =>
    exact ⟨containsSub_append_left _ (containsSub_front _ _),
      Or.inr (containsSub_append_left _ (containsSub_append_left _
        (containsSub_append_left _ (containsSub_refl _))))⟩
  | unexpectedError sp =>
    exact ⟨containsSub_append_left _ (containsSub_front _ _),
      Or.inr (containsSub_append_left _ (containsSub_append_left _
        (containsSub_append_left _ (containsSub_refl _))))⟩
  | unexpectedCharacter ch sp =>
    exact ⟨containsSub_append_left _ (containsSub_append_left _
        (containsSub_append_left _ (containsSub_front _ _))),
      Or.inr (containsSub_append_left _ (containsSub_append_left _
        (containsSub_append_left _ (containsSub_append_left _
          (containsSub_append_left _ (containsSub_refl _))))))⟩
  | invalidHaltCompiler sp =>
    exact ⟨containsSub_append_left _ (containsSub_front _ _),
      Or.inr (containsSub_append_left _ (containsSub_append_left _
        (containsSub_append_left _ (containsSub_refl _))))⟩
  | invalidOctalEscape sp =>
    exact ⟨containsSub_append_left _ (containsSub_front _ _),
      Or.inr (containsSub_append_left _ (containsSub_append_left _
        (containsSub_append_left _ (containsSub_refl _))))⟩
  | invalidOctalLiteral sp =>
    exact ⟨containsSub_append_left _ (containsSub_front _ _),
      Or.inr (containsSub_append_left _ (containsSub_append_left _
        (containsSub_append_left _ (containsSub_refl _))))⟩
  | invalidUnicodeEscape sp =>
    exact ⟨containsSub_append_left _ (containsSub_front _ _),
      Or.inr (containsSub_append_left _ (containsSub_append_left _
        (containsSub_append_left _ (containsSub_refl _))))⟩
  | unpredictableState sp =>
    exact ⟨containsSub_append_left _ (containsSub_front _ _),
      Or.inr (containsSub_append_left _ (containsSub_append_left _
        (containsSub_append_left _ (containsSub_refl _))))⟩
  | invalidDocIndentation sp =>
    exact ⟨containsSub_append_left _ (containsSub_refl _), Or.inl rfl⟩
  | invalidDocBodyIndentationLevel expected sp =>
    exact ⟨containsSub_append_left _ (containsSub_append_left _
      (containsSub_append_left _ (containsSub_refl _))), Or.inl rfl⟩
  | unrecognisedToken tok sp =>
    exact ⟨containsSub_append_left _ (containsSub_append_left _
        (containsSub_append_left _ (containsSub_front _ _))),
      Or.inr (containsSub_append_left _ (containsSub_append_left _
        (containsSub_append_left _ (containsSub_append_left _
          (containsSub_append_left _ (containsSub_refl _))))))⟩

/-- A successful `skip` advances by exactly one token of the stated kind. -/
theorem skip_ok (k : TokenKind) (s : State) (sp : Span) (s' : State)
    (h : skip k s = .ok sp s') : s' = next s ∧ (current s).kind = k := by
  unfold skip at h
  split at h
  · rename_i hc
    injection h with hv hs
    exact ⟨hs.symm, hc⟩
  · cases h

/-- `dynamic_variable` never exhausts fuel exceeding the stream length:
each self-call happens only after the cursor has advanced. -/
theorem dynamic_variableF_fuel_sufficient :
    ∀ (fuel : Nat) (s : State), s.length < fuel →
      dynamic_variableF fuel s ≠ .err .outOfFuel := by
  intro fuel
  induction fuel with
  | zero => intro s h; omega
  | succ n ih =>
    intro s h
    cases s with
    | nil => simp [dynamic_variableF, current, eofToken, next]
    | cons t rest =>
      have hnext : next (t :: rest) = rest := rfl
      simp only [dynamic_variableF]
      split
      · simp
      · split
        · cases hc : expressions_create (next (t :: rest)) with
          | err e =>
            have h2 := expressions_create_not_outOfFuel _ _ hc
            simp [hc, h2]
          | ok expr s1 =>
            cases hb : skip_right_brace s1 with
            | err e =>
              simp only [skip_right_brace] at hb
              have h2 := skip_not_outOfFuel _ _ _ hb
              simp [hc, skip_right_brace, hb, h2]
            | ok stop s2 => simp [hc, hb]
        · split
          · split
            · cases hc : expressions_create (next (next (t :: rest))) with
              | err e =>
                have h2 := expressions_create_not_outOfFuel _ _ hc
                simp [hc, h2]
              | ok expr s1 =>
                cases hb : skip_right_brace s1 with
                | err e =>
                  simp only [skip_right_brace] at hb
                  have h2 := skip_not_outOfFuel _ _ _ hb
                  simp [hc, skip_right_brace, hb, h2]
                | ok stop s2 => simp [hc, hb]
            · cases hd : dynamic_variableF n (next (t :: rest)) with
              | err e =>
                have h2 := ih rest (by simp at h; omega)
                rw [hnext] at hd
                rw [hd] at h2
                simp [hnext, hd]
                simpa using h2
              | ok v s1 => simp [hd]
          · simp

/-- `loop_level` never exhausts fuel exceeding the stream length: the
recursive call is made only after the opening parenthesis is consumed. -/
theorem loop_levelF_fuel_sufficient :
    ∀ (fuel : Nat) (s : State), s.length < fuel →
      loop_levelF fuel s ≠ .err .outOfFuel := by
  intro fuel
  induction fuel with
  | zero => intro s h; omega
  | succ n ih =>
    intro s h
    cases s with
    | nil => simp [loop_levelF, parenthesized, skip, current, eofToken, next, tokenKindName]
    | cons t rest =>
      simp only [loop_levelF, parenthesized]
      split
      · simp
      · cases hsk : skip .leftParen (t :: rest) with
        | err e =>
          have h2 := skip_not_outOfFuel _ _ _ hsk
          simp [hsk, h2]
        | ok lp s1 =>
          obtain ⟨hs1, _⟩ := skip_ok _ _ _ _ hsk
          have hs1r : s1 = rest := hs1
          cases hll : loop_levelF n s1 with
          | err e =>
            have h2 := ih s1 (by rw [hs1r]; simp at h; omega)
            rw [hll] at h2
            simp [hsk, hll]
            simpa using h2
          | ok lvl s2 =>
            cases hrp : skip .rightParen s2 with
            | err e =>
              have h2 := skip_not_outOfFuel _ _ _ hrp
              simp [hsk, hll, hrp, h2]
            | ok rp s3 => simp [hsk, hll, hrp]

/-- C10: the recursive productions `dynamic_variable` and `loop_level`
terminate on every finite token stream: each self-call is made only after
the cursor has advanced, so a fuel budget exceeding the number of
remaining tokens is never exhausted. -/
theorem c10_recursion_depth_bounded :
    (∀ (fuel : Nat) (s : State), s.length < fuel →
      dynamic_variableF fuel s ≠ .err .outOfFuel) ∧
    (∀ (fuel : Nat) (s : State), s.length < fuel →
      loop_levelF fuel s ≠ .err .outOfFuel) :=
  ⟨dynamic_variableF_fuel_sufficient, loop_levelF_fuel_sufficient⟩

/-- C10 (witness): the bound applied to the concrete streams `$$x` and
`(2)`. -/
theorem c10_witness :
    dynamic_variableF 3 [mkTok .dollar 0 "$", mkTok .variableTok 1 "$x"] ≠
      .err .outOfFuel ∧
    loop_levelF 4 [mkTok .leftParen 0 "(", mkTok .literalInteger 1 "2",
      mkTok .rightParen 2 ")"] ≠ .err .outOfFuel :=
  ⟨c10_recursion_depth_bounded.1 3 _ (by decide),
   c10_recursion_depth_bounded.2 4 _ (by decide)⟩

/-- C4: whenever the trait-name list loop of `usage` has just read a name
and stands on a `,` whose lookahead is `;` or `{`, it fails with an
expected-token error whose span is the span of the `,` (it redirects to
`skip_semicolon` or `skip_left_brace` at the comma); in particular the
tokens of `use A,;` make `usage` return exactly such an error pointing at
the comma. -/
theorem c4_trailing_comma_error :
    (∀ (fuel : Nat) (acc : List SimpleIdentifier) (s : State) (t : SimpleIdentifier)
      (s1 : State),
      (current s).kind ≠ .semiColon → (current s).kind ≠ .leftBrace →
      full_type_name s = .ok t s1 →
      (current s1).kind = .comma →
      (peek s1).kind = .semiColon ∨ (peek s1).kind = .leftBrace →
      ∃ expected, usageNamesLoop (fuel + 1) acc s =
        .err (.expectedToken expected (current s1).value (current s1).span)) ∧
    usageF 3 c4Tokens =
      .err (.expectedToken [tokenKindName .semiColon] "," (tokSpan 2)) := by
  constructor
  · intro fuel acc s t s1 h1 h2 h3 h4 h5
    simp only [usageNamesLoop, h1, h2, h3, h4]
    cases h5 with
    | inl hsemi =>
      refine ⟨[tokenKindName .semiColon], ?_⟩
      simp [hsemi, skip_semicolon, skip, h4, h1, h2]
    | inr hbrace =>
      refine ⟨[tokenKindName .leftBrace], ?_⟩
      simp [hbrace, skip_left_brace, skip, h4, h1, h2]
  · rfl

/-- C4 (witness): the loop property applied to the state `A,;` reached
after `use`, with one fuel step. -/
theorem c4_witness :
    ∃ expected, usageNamesLoop 1 [] [mkTok .identifier 1 "A", mkTok .comma 2 ",",
        mkTok .semiColon 3 ";", mkTok .eof 4 ""] =
      .err (.expectedToken expected "," (tokSpan 2)) :=
  c4_trailing_comma_error.1 0 []
    [mkTok .identifier 1 "A", mkTok .comma 2 ",", mkTok .semiColon 3 ";", mkTok .eof 4 ""]
    ⟨tokSpan 1, "A"⟩
    [mkTok .comma 2 ",", mkTok .semiColon 3 ";", mkTok .eof 4 ""]
    (by decide) (by decide) rfl rfl (Or.inl rfl)

/-- C2: whenever `foreach_iterator` succeeds with a `KeyAndValue` result,
the `key` field is the expression returned by the earlier
`expressions::create` call and the `value` field the one returned by the
later call (the production reads the first expression into `value`, then
swaps it into `key` on seeing `=>`), so the fields match source order. -/
theorem c2_key_before_value (s : State) (it : ForeachStatementIterator) (s' : State)
    (h : foreach_iterator s = .ok it s')
    (e : Expression) (a : Span) (amp : Option Span) (k : Expression) (d : Span)
    (v : Expression) (hit : it = .keyAndValue e a amp k d v) :
    ∃ sa sb sc sd, expressions_create sa = .ok k sb ∧
      expressions_create sc = .ok v sd ∧ sc.length < sb.length := by
  subst hit
  simp only [foreach_iterator] at h
  split at h
  · cases h
  · rename_i expression s1 heq1
    split at h
    · cases h
    · rename_i asSpan s2 heq2
      split at h
      · cases h
      · rename_i value0 s4 heq3
        split at h
        · rename_i harrow
          split at h
          · cases h
          · rename_i key0 s7 heq4
            injection h with h1 h2
            injection h1 with he ha hamp hk hd hv
            subst hk
            subst hv
            refine ⟨_, s4, _, s7, heq3, heq4, ?_⟩
            have hne : (current s4).kind ≠ .eof := by simp [harrow]
            have hlt := next_length_lt s4 hne
            have hle := next_length_le (next s4)
            split
            · omega
            · omega
        · rename_i hnoarrow
          injection h with h1 h2
          cases h1

/-- C2 (witness): the source-order property at the concrete header
`$xs as $k => $v`. -/
theorem c2_witness :
    ∃ sa sb sc sd,
      expressions_create sa =
        .ok (Expression.variableE (.simpleVariable ⟨tokSpan 2, "$k"⟩)) sb ∧
      expressions_create sc =
        .ok (Expression.variableE (.simpleVariable ⟨tokSpan 4, "$v"⟩)) sd ∧
      sc.length < sb.length :=
  c2_key_before_value c2Tokens
    (.keyAndValue (.variableE (.simpleVariable ⟨tokSpan 0, "$xs"⟩)) (tokSpan 1) none
      (.variableE (.simpleVariable ⟨tokSpan 2, "$k"⟩)) (tokSpan 3)
      (.variableE (.simpleVariable ⟨tokSpan 4, "$v"⟩)))
    [mkTok .eof 5 ""] rfl _ _ _ _ _ _ rfl

/-- A successful foreach body is the `Block` variant exactly when the
dispatch token was `:`. -/
theorem foreach_body_isBlock_iff (stmt : State → ParseResult Statement)
    (stmtsUntil : TokenKind → State → ParseResult (List Statement))
    (s : State) (b : ForeachStatementBody) (s' : State)
    (h : foreach_body stmt stmtsUntil s = .ok b s') :
    b.isBlock = true ↔ (current s).kind = .colon := by
  simp only [foreach_body] at h
  split at h
  · rename_i hc
    split at h
    · cases h
    · split at h
      · cases h
      · split at h
        · cases h
        · split at h
          · cases h
          · injection h with h1 h2
            subst h1
            simp [ForeachStatementBody.isBlock, hc]
  · rename_i hc
    split at h
    · cases h
    · injection h with h1 h2
      subst h1
      simp [ForeachStatementBody.isBlock, hc]

/-- A successful for body is the `Block` variant exactly when the dispatch
token was `:`. -/
theorem for_body_isBlock_iff (stmt : State → ParseResult Statement)
    (stmtsUntil : TokenKind → State → ParseResult (List Statement))
    (s : State) (b : ForStatementBody) (s' : State)
    (h : for_body stmt stmtsUntil s = .ok b s') :
    b.isBlock = true ↔ (current s).kind = .colon := by
  simp only [for_body] at h
  split at h
  · rename_i hc
    split at h
    · cases h
    · split at h
      · cases h
      · split at h
        · cases h
        · split at h
          · cases h
          · injection h with h1 h2
            subst h1
            simp [ForStatementBody.isBlock, hc]
  · rename_i hc
    split at h
    · cases h
    · injection h with h1 h2
      subst h1
      simp [ForStatementBody.isBlock, hc]

/-- A successful while body is the `Block` variant exactly when the
dispatch token was `:`. -/
theorem while_body_isBlock_iff (stmt : State → ParseResult Statement)
    (stmtsUntil : TokenKind → State → ParseResult (List Statement))
    (s : State) (b : WhileStatementBody) (s' : State)
    (h : while_body stmt stmtsUntil s = .ok b s') :
    b.isBlock = true ↔ (current s).kind = .colon := by
  simp only [while_body] at h
  split at h
  · rename_i hc
    split at h
    · cases h
    · split at h
      · cases h
      · split at h
        · cases h
        · split at h
          · cases h
          · injection h with h1 h2
            subst h1
            simp [WhileStatementBody.isBlock, hc]
  · rename_i hc
    split at h
    · cases h
    · injection h with h1 h2
      subst h1
      simp [WhileStatementBody.isBlock, hc]

/-- C5: every successfully parsed foreach, for and while statement has a
body that is one of the `Statement` or `Block` variants, and it is the
`Block` variant exactly when the token immediately after the closing `)`
of the header is `:`. -/
theorem c5_body_block_iff_colon (fuel : Nat) (s : State) :
    (∀ st s', foreach_statementF fuel s = .ok st s' →
      ∃ hdr s1, foreach_header s = .ok hdr s1 ∧
        ∃ fs, st = Statement.foreach fs ∧
          (fs.body.isBlock = true ↔ (current s1).kind = .colon)) ∧
    (∀ st s', for_statementF fuel s = .ok st s' →
      ∃ hdr s1, for_header fuel s = .ok hdr s1 ∧
        ∃ fs, st = Statement.forS fs ∧
          (fs.body.isBlock = true ↔ (current s1).kind = .colon)) ∧
    (∀ st s', while_statementF fuel s = .ok st s' →
      ∃ hdr s1, while_header s = .ok hdr s1 ∧
        ∃ ws, st = Statement.whileS ws ∧
          (ws.body.isBlock = true ↔ (current s1).kind = .colon)) := by
  refine ⟨?_, ?_, ?_⟩
  · intro st s' h
    simp only [foreach_statementF, foreach_statement_core] at h
    split at h
    · cases h
    · rename_i f lp it rp s1 heq1
      split at h
      · cases h
      · rename_i b s2 heq2
        injection h with h1 h2
        subst h1
        exact ⟨(f, lp, it, rp), s1, heq1, .mk f lp it rp b, rfl,
          foreach_body_isBlock_iff _ _ _ _ _ heq2⟩
  · intro st s' h
    simp only [for_statementF, for_statement_core] at h
    split at h
    · cases h
    · rename_i f lp it rp s1 heq1
      split at h
      · cases h
      · rename_i b s2 heq2
        injection h with h1 h2
        subst h1
        exact ⟨(f, lp, it, rp), s1, heq1, .mk f lp it rp b, rfl,
          for_body_isBlock_iff _ _ _ _ _ heq2⟩
  · intro st s' h
    simp only [while_statementF, while_statement_core] at h
    split at h
    · cases h
    · rename_i w lp cond rp s1 heq1
      split at h
      · cases h
      · rename_i b s2 heq2
        injection h with h1 h2
        subst h1
        exact ⟨(w, lp, cond, rp), s1, heq1, .mk w lp cond rp b, rfl,
          while_body_isBlock_iff _ _ _ _ _ heq2⟩

/-- C5 (witness): the dispatch applied to `foreach ($x as $v) ;` (statement
body), `for (;;) ;` (statement body) and `while ($x) : endwhile ;` (block
body). -/
theorem c5_witness :
    (∃ st sr hdr s1, foreach_statementF 5 c5ForeachTokens = .ok st sr ∧
      foreach_header c5ForeachTokens = .ok hdr s1 ∧
      ∃ fs, st = Statement.foreach fs ∧
        (fs.body.isBlock = true ↔ (current s1).kind = .colon)) ∧
    (∃ st sr hdr s1, for_statementF 5 c5ForTokens = .ok st sr ∧
      for_header 5 c5ForTokens = .ok hdr s1 ∧
      ∃ fs, st = Statement.forS fs ∧
        (fs.body.isBlock = true ↔ (current s1).kind = .colon)) ∧
    (∃ st sr hdr s1, while_statementF 5 c5WhileTokens = .ok st sr ∧
      while_header c5WhileTokens = .ok hdr s1 ∧
      ∃ ws, st = Statement.whileS ws ∧
        (ws.body.isBlock = true ↔ (current s1).kind = .colon)) := by
  refine ⟨?_, ?_, ?_⟩
  · obtain ⟨hdr, s1, h1, fs, h2, h3⟩ :=
      (c5_body_block_iff_colon 5 c5ForeachTokens).1 _ _ rfl
    exact ⟨_, _, hdr, s1, rfl, h1, fs, h2, h3⟩
  · obtain ⟨hdr, s1, h1, fs, h2, h3⟩ :=
      (c5_body_block_iff_colon 5 c5ForTokens).2.1 _ _ rfl
    exact ⟨_, _, hdr, s1, rfl, h1, fs, h2, h3⟩
  · obtain ⟨hdr, s1, h1, ws, h2, h3⟩ :=
      (c5_body_block_iff_colon 5 c5WhileTokens).2.2 _ _ rfl
    exact ⟨_, _, hdr, s1, rfl, h1, ws, h2, h3⟩
